import Mathlib

/-!
Shallow embedding of the mock CarShop API server (server.js): fixture data,
the fake authentication gate, per-endpoint validation chains and the five
route handlers, together with theorems about the request-handling surface.

The server is embedded as a pure function from an environment (the clock and
date-library oracles), a fixture store and a request to a response paired
with the resulting store.  Handlers never write to the store in the source,
so every handler returns the store it was given; the store is threaded
explicitly so that this is a provable property rather than a convention.
-/

/-- A JSON value, as produced by the JSON body parser and emitted in
responses.  Objects are ordered association lists of key/value pairs,
mirroring the insertion-order semantics of JavaScript objects (needed to
model the object-spread in the new-car handler).  Numbers that occur in this
server are integers, so the numeric payload is an `Int`. -/
inductive Json where
  | null
  | bool (b : Bool)
  | num (n : Int)
  | str (s : String)
  | arr (items : List Json)
  | obj (fields : List (String × Json))
deriving Inhabited

mutual

/-- Serialisation of a JSON value to the byte string the server sends (the
strings occurring in this server need no escaping). -/
def Json.render : Json → String
  | .null => "null"
  | .bool b => if b then "true" else "false"
  | .num n => toString n
  | .str s => "\"" ++ s ++ "\""
  | .arr xs => "[" ++ Json.renderList xs ++ "]"
  | .obj ms => "\x7b" ++ Json.renderMembers ms ++ "\x7d"

def Json.renderList : List Json → String
  | [] => ""
  | [x] => Json.render x
  | x :: xs => Json.render x ++ "," ++ Json.renderList xs

def Json.renderMembers : List (String × Json) → String
  | [] => ""
  | [(k, v)] => "\"" ++ k ++ "\":" ++ Json.render v
  | (k, v) :: ms => "\"" ++ k ++ "\":" ++ Json.render v ++ "," ++ Json.renderMembers ms

end

/-- The value stored under key `k` in an ordered association list, if any
(first occurrence wins, as in JavaScript property lookup). -/
def lookupField (members : List (String × Json)) (k : String) : Option Json :=
  match members with
  | [] => none
  | (k2, v) :: rest => if k2 = k then some v else lookupField rest k

/-- JavaScript property assignment `o[k] = v` on an ordered association
list: overwrite in place if the key exists, else append at the end. -/
def setField (members : List (String × Json)) (k : String) (v : Json) :
    List (String × Json) :=
  match members with
  | [] => [(k, v)]
  | (k2, v2) :: rest =>
      if k2 = k then (k, v) :: rest else (k2, v2) :: setField rest k v

/-- JavaScript object spread `\x7b ...base, ...extra \x7d` restricted to the
part we need: assign every pair of `extra`, in order, into `base`. -/
def spreadInto (base extra : List (String × Json)) : List (String × Json) :=
  extra.foldl (fun acc kv => setField acc kv.1 kv.2) base

/-- The members of a JSON object; any other value has none (reading a named
property of a non-object request body yields `undefined`). -/
def fieldsOf : Json → List (String × Json)
  | .obj members => members
  | _ => []

/-- Reading `body[k]` on a request body. -/
def getField (b : Json) (k : String) : Option Json :=
  lookupField (fieldsOf b) k

/-- A user record from the fake database (the `users` mapping). -/
structure User where
  id : String
  name : String
  email : String
  role : String
  profileId : String
deriving DecidableEq, Repr

/-- The fixture store: the five hardcoded collections of the fake database.
`users`, `cars` and `customers` are keyed mappings (association lists, as
the source uses plain objects keyed by email resp. id); `offerings` and
`appointments` are arrays. -/
structure Store where
  users : List (String × User)
  cars : List (String × Json)
  customers : List (String × Json)
  offerings : List Json
  appointments : List Json

/-- The `users[email]` lookup. -/
def lookupUser (users : List (String × User)) (email : String) : Option User :=
  (users.find? (fun p => p.1 = email)).map (fun p => p.2)

/-- The `customers[profileId]` (or `cars[id]`) lookup. -/
def lookupRecord (records : List (String × Json)) (key : String) : Option Json :=
  (records.find? (fun p => p.1 = key)).map (fun p => p.2)

/-- Own-property names of `Object.prototype`.  A plain object literal
inherits them through the prototype chain, so bracket access with any of
these names yields a truthy member (a built-in function, or the prototype
object itself for `__proto__`) even though none of them is a key of the
literal. -/
def objectProtoKeys : List String :=
  ["constructor", "hasOwnProperty", "isPrototypeOf", "propertyIsEnumerable",
   "toLocaleString", "toString", "valueOf", "__defineGetter__",
   "__defineSetter__", "__lookupGetter__", "__lookupSetter__", "__proto__"]

/-- The value the gate attaches as `req.user` when it passes: one of the
fixture user records (an own key of the `users` literal), or a truthy
member inherited from `Object.prototype` (the literal is a plain object,
so bracket access falls through to the prototype chain). -/
inductive ReqUser where
  | record (u : User)
  | protoMember (name : String)

/-- Reading `req.user.role`: a fixture record has its role string; an
inherited built-in member has no `role` property, so the read yields
`undefined`. -/
def ReqUser.role : ReqUser → Option String
  | .record u => some u.role
  | .protoMember _ => none

/-- Reading `req.user.profileId`, analogously. -/
def ReqUser.profileId : ReqUser → Option String
  | .record u => some u.profileId
  | .protoMember _ => none

/-- The JavaScript member access `users[email]`: an own key yields its
record, any `Object.prototype` member name yields the truthy inherited
member, and every other name yields `undefined`. -/
def usersAccess (users : List (String × User)) (email : String) :
    Option ReqUser :=
  match lookupUser users email with
  | some u => some (.record u)
  | none =>
      if email ∈ objectProtoKeys then some (.protoMember email) else none

def user1 : User :=
  ⟨"user-1", "John Customer", "customer@carshop.com", "CUSTOMER", "cust-1"⟩

def user2 : User :=
  ⟨"user-2", "Jane Doe", "employee@carshop.com", "EMPLOYEE", "emp-1"⟩

def user3 : User :=
  ⟨"user-3", "Shop Owner", "owner@carshop.com", "OWNER", "owner-1"⟩

def car1J : Json := .obj
  [("id", .str "car-1"), ("make", .str "Honda"), ("model", .str "City"),
   ("year", .num 2023), ("color", .str "White"),
   ("licensePlate", .str "MH14XY5678"), ("carType", .str "SEDAN")]

def car2J : Json := .obj
  [("id", .str "car-2"), ("make", .str "Maruti"), ("model", .str "Swift"),
   ("year", .num 2022), ("color", .str "Red"),
   ("licensePlate", .str "MH12AB1234"), ("carType", .str "HATCHBACK")]

def cust1J : Json := .obj
  [("id", .str "cust-1"), ("name", .str "John Customer"),
   ("email", .str "customer@carshop.com"), ("phone", .str "9876543210"),
   ("address", .str "123 Main St, Pune"), ("cars", .arr [car1J, car2J])]

def off1J : Json := .obj
  [("id", .str "offering-1"), ("name", .str "Premium Wash"),
   ("description", .str "Full exterior and interior cleaning."),
   ("durationMins", .num 45),
   ("prices", .obj [("HATCHBACK", .num 300), ("SEDAN", .num 350), ("SUV", .num 400)])]

def off2J : Json := .obj
  [("id", .str "offering-2"), ("name", .str "Ceramic Coating (3 Year)"),
   ("description", .str "Full body ceramic coating."),
   ("durationMins", .num 2880),
   ("prices", .obj [("HATCHBACK", .num 20000), ("SEDAN", .num 25000), ("SUV", .num 30000)])]

def off3J : Json := .obj
  [("id", .str "offering-3"), ("name", .str "PPF - Full Front"),
   ("description", .str "Paint Protection Film."),
   ("durationMins", .num 600),
   ("prices", .obj [("HATCHBACK", .num 35000), ("SEDAN", .num 40000), ("SUV", .num 45000)])]

/-- The one fixture appointment.  Its `scheduledTime` is computed at process
start as `new Date(Date.now() + 3 days).toISOString()`; the resulting string
is passed in as `apptIso`. -/
def appt1J (apptIso : String) : Json := .obj
  [("id", .str "appt-1"), ("scheduledTime", .str apptIso),
   ("status", .str "SCHEDULED"), ("totalCost", .num 350),
   ("customer", cust1J), ("car", car1J), ("offering", off1J)]

/-- The fixture store as initialised at module load. -/
def initStore (apptIso : String) : Store where
  users :=
    [("customer@carshop.com", user1), ("employee@carshop.com", user2),
     ("owner@carshop.com", user3)]
  cars := [("car-1", car1J), ("car-2", car2J)]
  customers := [("cust-1", cust1J)]
  offerings := [off1J, off2J, off3J]
  appointments := [appt1J apptIso]

/-- The ambient environment of a single request: the clock and the
date-library behaviour the handlers consult.  `currentYear` is
`new Date().getFullYear()`, `now` is `Date.now()` at handling time.
Modelled from the spec: `isISO8601` abstracts the ISO-8601 parseability
check of the validation library, and `hourOf` abstracts
`new Date(value).getHours()`, the hour-of-day of the parsed timestamp in
the (unspecified) server-local time zone; neither computation is part of
this repository. -/
structure Env where
  currentYear : Int
  now : Nat
  isISO8601 : String → Bool
  hourOf : Json → Int

/-- HTTP methods used by the five routes. -/
inductive Method where
  | GET
  | POST
deriving DecidableEq, Repr

/-- An incoming request: method, path, the `x-user-email` header (if
present) and the parsed JSON body. -/
structure Request where
  method : Method
  path : String
  xUserEmail : Option String
  body : Json

/-- One entry of a validation failure list, as serialised from
`errors.array()`: the offending field and its configured message. -/
structure FieldError where
  field : String
  message : String
deriving DecidableEq, Repr

/-- A response body: a single-message object, a validation-error list, or a
JSON document. -/
inductive RespBody where
  | msg (s : String)
  | errs (l : List FieldError)
  | json (j : Json)

/-- An HTTP response: status code and JSON body. -/
structure Response where
  status : Nat
  body : RespBody

mutual

/-- JavaScript string coercion of a value as the validation library applies
it before running a check: `undefined`/`null` become the empty string,
numbers and booleans their decimal/keyword form, arrays join their
elements with commas (nested arrays flatten, as `Array.prototype.toString`
does), and plain objects stringify to `[object Object]`. -/
def jsToStr : Json → String
  | .null => ""
  | .bool b => if b then "true" else "false"
  | .num n => toString n
  | .str s => s
  | .arr xs => jsToStrList xs
  | .obj _ => "[object Object]"

def jsToStrList : List Json → String
  | [] => ""
  | [x] => jsToStr x
  | x :: xs => jsToStr x ++ "," ++ jsToStrList xs

end

/-- The `.notEmpty()` check: the stringified value is non-empty; a missing
field (`undefined`) stringifies to the empty string and fails. -/
def jsNotEmpty (v : Option Json) : Bool :=
  match v with
  | none => false
  | some j => jsToStr j != ""

/-- Parse of a decimal integer literal with optional sign, as the
range-checked integer rule accepts it. -/
def parseJsInt (s : String) : Option Int :=
  let digits : List Char → Option Nat := fun t =>
    if t ≠ [] ∧ t.all (fun c => c.isDigit) then
      some (t.foldl (fun a c => a * 10 + (c.toNat - 48)) 0)
    else none
  match s.data with
  | '-' :: rest => (digits rest).map (fun n => -(n : Int))
  | '+' :: rest => (digits rest).map (fun n => (n : Int))
  | l => (digits l).map (fun n => (n : Int))

/-- The `.isInt(\x7bmin, max\x7d)` check: the stringified value is a decimal
integer literal whose value lies in the inclusive range. -/
def jsIsIntInRange (lo hi : Int) (v : Option Json) : Bool :=
  match v with
  | none => false
  | some j =>
      match parseJsInt (jsToStr j) with
      | some n => lo ≤ n && n ≤ hi
      | none => false

/-- The `.isISO8601()` check on the stringified value, through the
environment oracle; a missing field fails. -/
def jsIsISO8601 (env : Env) (v : Option Json) : Bool :=
  match v with
  | none => false
  | some j => env.isISO8601 (jsToStr j)

/-- One declared validation rule: the field it names, the configured
message, and the check run against the raw request body. -/
structure Rule where
  field : String
  message : String
  check : Json → Bool

/-- Run a declared rule chain in order: every rule is evaluated (no
short-circuit) and each failing rule appends one error entry. -/
def runRules (rules : List Rule) (b : Json) : List FieldError :=
  match rules with
  | [] => []
  | r :: rest => (if r.check b then [] else [⟨r.field, r.message⟩]) ++ runRules rest b

/-- The POST /api/profile/cars validation chain, in declaration order. -/
def carRules (currentYear : Int) : List Rule :=
  [⟨"make", "Make is required", fun b => jsNotEmpty (getField b "make")⟩,
   ⟨"model", "Model is required", fun b => jsNotEmpty (getField b "model")⟩,
   ⟨"year", "Please enter a valid year",
      fun b => jsIsIntInRange 1980 (currentYear + 1) (getField b "year")⟩,
   ⟨"color", "Color is required", fun b => jsNotEmpty (getField b "color")⟩,
   ⟨"licensePlate", "License plate is required",
      fun b => jsNotEmpty (getField b "licensePlate")⟩]

/-- The POST /api/appointments validation chain, in declaration order. -/
def apptRules (env : Env) : List Rule :=
  [⟨"carId", "Car selection is required", fun b => jsNotEmpty (getField b "carId")⟩,
   ⟨"offeringId", "Service selection is required",
      fun b => jsNotEmpty (getField b "offeringId")⟩,
   ⟨"scheduledTime", "A valid date and time is required",
      fun b => jsIsISO8601 env (getField b "scheduledTime")⟩]

/-- The 401 response the authentication gate produces. -/
def unauthorizedResp : Response :=
  ⟨401, .msg "Unauthorized: Please provide a valid \x27x-user-email\x27 header."⟩

/-- The fake authentication middleware: reject when the header is absent,
empty (falsy) or the object access `users[userEmail]` yields `undefined`;
otherwise run the route handler with whatever the access produced, a
fixture record or an inherited prototype member. -/
def fakeAuth (s : Store) (req : Request) (route : ReqUser → Response × Store) :
    Response × Store :=
  match req.xUserEmail with
  | none => (unauthorizedResp, s)
  | some userEmail =>
      if userEmail = "" then (unauthorizedResp, s)
      else
        match usersAccess s.users userEmail with
        | none => (unauthorizedResp, s)
        | some ru => route ru

/-- GET /api/profile handler body.  The attached `req.user` may be an
inherited built-in placed there by the gate; its `role` read then yields
`undefined`, which is not the string CUSTOMER, so the 403 branch fires. -/
def getProfile (s : Store) (user : ReqUser) : Response × Store :=
  if user.role ≠ some "CUSTOMER" then
    (⟨403, .msg "Forbidden: Only customers can access this profile."⟩, s)
  else
    match user.profileId with
    | some pid =>
        match lookupRecord s.customers pid with
        | none => (⟨404, .msg "Customer profile not found."⟩, s)
        | some customerProfile => (⟨200, .json customerProfile⟩, s)
    | none =>
        -- dead after the role check; an undefined profileId keys nothing
        (⟨404, .msg "Customer profile not found."⟩, s)

/-- GET /api/profile/appointments handler body: returns all appointments,
ignoring the resolved user. -/
def getProfileAppointments (s : Store) (_user : ReqUser) : Response × Store :=
  (⟨200, .json (.arr s.appointments)⟩, s)

/-- GET /api/offerings handler body. -/
def getOfferings (s : Store) (_user : ReqUser) : Response × Store :=
  (⟨200, .json (.arr s.offerings)⟩, s)

/-- Little-endian decimal digits of a natural number (`0` renders as the
single digit `0`, as JavaScript number-to-string conversion does). -/
def decDigits (n : Nat) : List Nat :=
  if h : n < 10 then [n] else n % 10 :: decDigits (n / 10)
decreasing_by exact Nat.div_lt_self (by omega) (by omega)

/-- Decimal rendering of a natural number, the conversion a template
literal applies to the timestamp. -/
def decString (n : Nat) : String :=
  ((decDigits n).reverse.map Nat.digitChar).asString

/-- Value of a little-endian decimal digit list (left inverse of
`decDigits`). -/
def ofDigs : List Nat → Nat
  | [] => 0
  | d :: ds => d + 10 * ofDigs ds

/-- The generated car identifier: the template literal with the current
timestamp. -/
def genCarId (now : Nat) : String :=
  "car-" ++ decString now

/-- The new-car object literal: generated `id`, then the spread request
body, then `carType` set to null. -/
def newCarJson (now : Nat) (b : Json) : Json :=
  .obj (setField
    (spreadInto [("id", .str (genCarId now))] (fieldsOf b))
    "carType" .null)

/-- POST /api/profile/cars handler body (runs after its validation chain
has recorded any errors). -/
def postProfileCars (env : Env) (s : Store) (_user : ReqUser) (b : Json) :
    Response × Store :=
  let errors := runRules (carRules env.currentYear) b
  if !errors.isEmpty then (⟨400, .errs errors⟩, s)
  else (⟨201, .json (newCarJson env.now b)⟩, s)

/-- The simulated scheduling conflict: the raw `offeringId` is exactly the
string "offering-1" and the local hour of `new Date(scheduledTime)` lies in
the inclusive range 10..12.  (When the conflict check runs, validation has
already ensured `scheduledTime` is present, so the `.getD .null` default is
dead code.) -/
def slotConflict (env : Env) (b : Json) : Bool :=
  match getField b "offeringId" with
  | some (.str o) =>
      if o = "offering-1" then
        let hour := env.hourOf ((getField b "scheduledTime").getD .null)
        10 ≤ hour && hour ≤ 12
      else false
  | _ => false

/-- POST /api/appointments handler body (runs after its validation chain
has recorded any errors). -/
def postAppointments (env : Env) (s : Store) (_user : ReqUser) (b : Json) :
    Response × Store :=
  let errors := runRules (apptRules env) b
  if !errors.isEmpty then (⟨400, .errs errors⟩, s)
  else if slotConflict env b then
    (⟨400, .msg "The selected time slot is unavailable. Please choose another time."⟩, s)
  else (⟨201, .msg "Appointment booked successfully!"⟩, s)

/-- The full request dispatch: route on method and path, run the
authentication gate, then the handler.  An unmatched route gets the
framework default 404. -/
def handle (env : Env) (s : Store) (req : Request) : Response × Store :=
  match req.method, req.path with
  | .GET, "/api/profile" => fakeAuth s req (fun u => getProfile s u)
  | .GET, "/api/profile/appointments" =>
      fakeAuth s req (fun u => getProfileAppointments s u)
  | .GET, "/api/offerings" => fakeAuth s req (fun u => getOfferings s u)
  | .POST, "/api/profile/cars" =>
      fakeAuth s req (fun u => postProfileCars env s u req.body)
  | .POST, "/api/appointments" =>
      fakeAuth s req (fun u => postAppointments env s u req.body)
  | _, _ => (⟨404, .msg "Not found"⟩, s)

/-- The five declared routes. -/
def apiRoutes : List (Method × String) :=
  [(.GET, "/api/profile"), (.GET, "/api/profile/appointments"),
   (.GET, "/api/offerings"), (.POST, "/api/profile/cars"),
   (.POST, "/api/appointments")]

/-- Serialisation of one validation-error entry. -/
def FieldError.render (e : FieldError) : String :=
  "\x7b\"field\":\"" ++ e.field ++ "\",\"message\":\"" ++ e.message ++ "\"\x7d"

/-- Serialisation of a response body to the bytes the server sends. -/
def RespBody.render : RespBody → String
  | .msg s => "\x7b\"message\":\"" ++ s ++ "\"\x7d"
  | .errs l =>
      "\x7b\"errors\":[" ++ String.intercalate "," (l.map FieldError.render) ++ "]\x7d"
  | .json j => j.render

/-- Serialisation of a whole response: status line and body bytes. -/
def Response.render (r : Response) : String :=
  decString r.status ++ " " ++ r.body.render

/-- A sample environment for concrete runs: year 2025, timestamp 5, exactly
one parseable time string, whose local hour is 11. -/
def envHour11 : Env :=
  ⟨2025, 5,
   fun s => s = "2026-01-05T11:30:00",
   fun j => match j with
     | .str s => if s = "2026-01-05T11:30:00" then 11 else 0
     | _ => 0⟩

/-- A sample environment identical to `envHour11` except that the parseable
time string falls at local hour 9. -/
def envHour9 : Env :=
  ⟨2025, 5,
   fun s => s = "2026-01-05T11:30:00",
   fun j => match j with
     | .str s => if s = "2026-01-05T11:30:00" then 9 else 0
     | _ => 0⟩

/-- A sample environment identical to `envHour11` except that the
timestamp is 6. -/
def envHour11Later : Env :=
  ⟨2025, 6,
   fun s => s = "2026-01-05T11:30:00",
   fun j => match j with
     | .str s => if s = "2026-01-05T11:30:00" then 11 else 0
     | _ => 0⟩

/-- A fully valid new-car payload. -/
def goodCarBody : Json := .obj
  [("make", .str "Toyota"), ("model", .str "Yaris"), ("year", .num 2021),
   ("color", .str "Blue"), ("licensePlate", .str "MH01AA0001")]

/-- A new-car payload violating two rules (empty make, year out of
range). -/
def badCarBody : Json := .obj
  [("make", .str ""), ("model", .str "Yaris"), ("year", .num 3050),
   ("color", .str "Blue"), ("licensePlate", .str "MH01AA0001")]

/-- A valid new-car payload that also smuggles in its own `id` and
`carType` members. -/
def sneakyCarBody : Json := .obj
  [("make", .str "Toyota"), ("model", .str "Yaris"), ("year", .num 2021),
   ("color", .str "Blue"), ("licensePlate", .str "MH01AA0001"),
   ("id", .str "evil"), ("carType", .str "SUV")]

/-- An appointment payload for the given offering at the sample parseable
time string. -/
def apptBody (offeringId : String) : Json := .obj
  [("carId", .str "car-1"), ("offeringId", .str offeringId),
   ("scheduledTime", .str "2026-01-05T11:30:00")]

/-! ### Helper lemmas -/

theorem runRules_eq_filterMap (rules : List Rule) (b : Json) :
    runRules rules b
      = (rules.filter (fun r => !r.check b)).map (fun r => ⟨r.field, r.message⟩) := by
  induction rules with
  | nil => rfl
  | cons r rest ih =>
      cases h : r.check b <;> simp [runRules, List.filter_cons, h, ih]

theorem lookupField_setField (members : List (String × Json)) (k : String)
    (v : Json) (k2 : String) :
    lookupField (setField members k v) k2
      = if k = k2 then some v else lookupField members k2 := by
  induction members with
  | nil => simp [setField, lookupField]
  | cons p rest ih =>
      obtain ⟨k3, v3⟩ := p
      by_cases h3 : k3 = k
      · subst h3
        by_cases hk : k3 = k2 <;> simp [setField, lookupField, hk]
      · by_cases h32 : k3 = k2
        · subst h32
          have : ¬ k = k3 := fun h => h3 h.symm
          simp [setField, lookupField, h3, this]
        · simp [setField, lookupField, h3, h32, ih]

theorem lookupField_append (l1 l2 : List (String × Json)) (k : String) :
    lookupField (l1 ++ l2) k
      = (lookupField l1 k).orElse (fun _ => lookupField l2 k) := by
  induction l1 with
  | nil => simp [lookupField]
  | cons p rest ih =>
      obtain ⟨k2, v⟩ := p
      by_cases h : k2 = k <;> simp [lookupField, h, ih]

theorem lookupField_eq_none_iff (l : List (String × Json)) (k : String) :
    lookupField l k = none ↔ k ∉ l.map Prod.fst := by
  induction l with
  | nil => simp [lookupField]
  | cons p rest ih =>
      obtain ⟨k2, v⟩ := p
      by_cases h : k2 = k
      · subst h; simp [lookupField]
      · have h2 : ¬ k = k2 := fun hh => h hh.symm
        simp [lookupField, h, h2, ih]

theorem lookupField_reverse (l : List (String × Json)) (k : String)
    (h : (l.map Prod.fst).Nodup) :
    lookupField l.reverse k = lookupField l k := by
  induction l with
  | nil => rfl
  | cons p rest ih =>
      obtain ⟨k2, v⟩ := p
      simp only [List.map_cons, List.nodup_cons] at h
      rw [List.reverse_cons, lookupField_append]
      by_cases hk : k2 = k
      · subst hk
        have hnone : lookupField rest k2 = none :=
          (lookupField_eq_none_iff _ _).2 h.1
        have hnoner : lookupField rest.reverse k2 = none := by
          rw [(lookupField_eq_none_iff _ _)]
          simpa using h.1
        simp [hnone, hnoner, lookupField]
      · simp [lookupField, hk, ih h.2]

theorem lookupField_spreadInto (extra base : List (String × Json)) (k : String) :
    lookupField (spreadInto base extra) k
      = (lookupField extra.reverse k).orElse (fun _ => lookupField base k) := by
  induction extra generalizing base with
  | nil => simp [spreadInto, lookupField]
  | cons p rest ih =>
      obtain ⟨k0, v0⟩ := p
      have hstep : spreadInto base ((k0, v0) :: rest)
          = spreadInto (setField base k0 v0) rest := rfl
      rw [hstep, ih, List.reverse_cons, lookupField_append, lookupField_setField]
      cases hfound : lookupField rest.reverse k
      · by_cases h0 : k0 = k <;> simp [lookupField, h0]
      · simp

theorem lookupField_eq_of_mem (l : List (String × Json)) (k : String) (v : Json)
    (h : (l.map Prod.fst).Nodup) (hm : (k, v) ∈ l) :
    lookupField l k = some v := by
  induction l with
  | nil => cases hm
  | cons p rest ih =>
      obtain ⟨k2, v2⟩ := p
      simp only [List.map_cons, List.nodup_cons] at h
      rcases List.mem_cons.1 hm with he | hrest
      · injection he with hk hv
        subst hk
        subst hv
        simp [lookupField]
      · have hne : k2 ≠ k := by
          intro hk
          subst hk
          exact h.1 (List.mem_map_of_mem Prod.fst hrest)
        simp [lookupField, hne, ih h.2 hrest]

theorem lookupField_newCar (now : Nat) (b : Json) (k : String)
    (h : ((fieldsOf b).map Prod.fst).Nodup) :
    lookupField (fieldsOf (newCarJson now b)) k
      = if k = "carType" then some .null
        else (lookupField (fieldsOf b) k).orElse
          (fun _ => if k = "id" then some (.str (genCarId now)) else none) := by
  have hshape : fieldsOf (newCarJson now b)
      = setField (spreadInto [("id", .str (genCarId now))] (fieldsOf b)) "carType" .null := rfl
  rw [hshape, lookupField_setField, lookupField_spreadInto, lookupField_reverse _ _ h]
  by_cases hct : "carType" = k
  · simp [hct]
  · have hct2 : ¬ k = "carType" := fun hh => hct hh.symm
    by_cases hid : "id" = k
    · subst hid
      simp [hct, hct2, lookupField]
    · have hid2 : ¬ k = "id" := fun hh => hid hh.symm
      simp [hct, hct2, hid, hid2, lookupField]

theorem ofDigs_decDigits (n : Nat) : ofDigs (decDigits n) = n := by
  induction n using Nat.strong_induction_on with
  | _ n ih =>
      rw [decDigits]
      by_cases h : n < 10
      · simp [h, ofDigs]
      · have hn : 0 < n := by omega
        rw [dif_neg h]
        simp only [ofDigs, ih (n / 10) (Nat.div_lt_self hn (by omega))]
        omega

theorem decDigits_lt (n : Nat) : ∀ d ∈ decDigits n, d < 10 := by
  induction n using Nat.strong_induction_on with
  | _ n ih =>
      rw [decDigits]
      by_cases h : n < 10
      · simp [h]
      · rw [dif_neg h]
        intro d hd
        rcases List.mem_cons.1 hd with rfl | hmem
        · exact Nat.mod_lt _ (by omega)
        · exact ih (n / 10) (Nat.div_lt_self (by omega) (by omega)) d hmem

theorem digitChar_inj (d d2 : Nat) (h : d < 10) (h2 : d2 < 10)
    (he : Nat.digitChar d = Nat.digitChar d2) : d = d2 := by
  interval_cases d <;> interval_cases d2 <;> revert he <;> decide

theorem map_digitChar_inj : ∀ (l1 l2 : List Nat),
    (∀ d ∈ l1, d < 10) → (∀ d ∈ l2, d < 10) →
    l1.map Nat.digitChar = l2.map Nat.digitChar → l1 = l2
  | [], [], _, _, _ => rfl
  | [], _ :: _, _, _, he => by simp at he
  | _ :: _, [], _, _, he => by simp at he
  | d :: l1, d2 :: l2, h1, h2, he => by
      simp only [List.map_cons, List.cons.injEq] at he
      have hd := digitChar_inj d d2 (h1 d (by simp)) (h2 d2 (by simp)) he.1
      have hl := map_digitChar_inj l1 l2
        (fun x hx => h1 x (by simp [hx])) (fun x hx => h2 x (by simp [hx])) he.2
      rw [hd, hl]

theorem decString_inj (n m : Nat) (h : decString n = decString m) : n = m := by
  unfold decString at h
  have hdata : (decDigits n).reverse.map Nat.digitChar
      = (decDigits m).reverse.map Nat.digitChar := by
    have := congrArg String.data h
    simpa [List.asString] using this
  have hrev := map_digitChar_inj _ _
    (fun d hd => decDigits_lt n d (List.mem_reverse.1 hd))
    (fun d hd => decDigits_lt m d (List.mem_reverse.1 hd)) hdata
  have hdig : decDigits n = decDigits m := List.reverse_injective hrev
  have h1 := ofDigs_decDigits n
  rw [hdig, ofDigs_decDigits m] at h1
  exact h1.symm

theorem genCarId_inj (n m : Nat) (h : genCarId n = genCarId m) : n = m := by
  unfold genCarId at h
  have hd := congrArg String.data h
  simp only [String.data_append] at hd
  exact decString_inj n m (String.ext (List.append_cancel_left hd))

theorem genCarId_ne_empty (n : Nat) : genCarId n ≠ "" := by
  intro h
  have hd := congrArg String.data h
  simp [genCarId, String.data_append] at hd

theorem handle_get_profile (env : Env) (s : Store) (em : Option String) (b : Json) :
    handle env s ⟨.GET, "/api/profile", em, b⟩
      = fakeAuth s ⟨.GET, "/api/profile", em, b⟩ (fun u => getProfile s u) := rfl

theorem handle_get_appts (env : Env) (s : Store) (em : Option String) (b : Json) :
    handle env s ⟨.GET, "/api/profile/appointments", em, b⟩
      = fakeAuth s ⟨.GET, "/api/profile/appointments", em, b⟩
          (fun u => getProfileAppointments s u) := rfl

theorem handle_get_offerings (env : Env) (s : Store) (em : Option String) (b : Json) :
    handle env s ⟨.GET, "/api/offerings", em, b⟩
      = fakeAuth s ⟨.GET, "/api/offerings", em, b⟩ (fun u => getOfferings s u) := rfl

theorem handle_post_cars (env : Env) (s : Store) (em : Option String) (b : Json) :
    handle env s ⟨.POST, "/api/profile/cars", em, b⟩
      = fakeAuth s ⟨.POST, "/api/profile/cars", em, b⟩
          (fun u => postProfileCars env s u b) := rfl

theorem handle_post_appts (env : Env) (s : Store) (em : Option String) (b : Json) :
    handle env s ⟨.POST, "/api/appointments", em, b⟩
      = fakeAuth s ⟨.POST, "/api/appointments", em, b⟩
          (fun u => postAppointments env s u b) := rfl

/-- The fixture identity resolved by the gate: the header must be present,
truthy (non-empty) and name an own key of the user mapping. -/
def resolveUser (s : Store) (em : Option String) : Option User :=
  match em with
  | none => none
  | some e => if e = "" then none else lookupUser s.users e

/-- Everything the gate can attach as `req.user`: like `resolveUser`, but
also producing the inherited member for an Object.prototype name. -/
def resolveReqUser (s : Store) (em : Option String) : Option ReqUser :=
  match em with
  | none => none
  | some e => if e = "" then none else usersAccess s.users e

theorem fakeAuth_eq (s : Store) (req : Request)
    (route : ReqUser → Response × Store) :
    fakeAuth s req route
      = match resolveReqUser s req.xUserEmail with
        | none => (unauthorizedResp, s)
        | some ru => route ru := by
  unfold fakeAuth resolveReqUser
  cases req.xUserEmail with
  | none => rfl
  | some e =>
      by_cases he : e = ""
      · simp [he]
      · cases hu : usersAccess s.users e <;> simp [he, hu]

theorem resolveReqUser_of_resolveUser (s : Store) (em : Option String)
    (u : User) (hu : resolveUser s em = some u) :
    resolveReqUser s em = some (.record u) := by
  cases em with
  | none => exact Option.noConfusion hu
  | some e =>
      simp only [resolveUser] at hu
      simp only [resolveReqUser, usersAccess]
      by_cases he : e = ""
      · rw [if_pos he] at hu
        exact Option.noConfusion hu
      · rw [if_neg he] at hu
        rw [if_neg he, hu]

theorem fakeAuth_auth (s : Store) (req : Request)
    (route : ReqUser → Response × Store) (u : User)
    (hu : resolveUser s req.xUserEmail = some u) :
    fakeAuth s req route = route (.record u) := by
  rw [fakeAuth_eq, resolveReqUser_of_resolveUser s req.xUserEmail u hu]

theorem getProfile_snd (s : Store) (user : ReqUser) :
    (getProfile s user).2 = s := by
  unfold getProfile
  split
  · rfl
  · split
    · split <;> rfl
    · rfl

theorem postProfileCars_snd (env : Env) (s : Store) (user : ReqUser) (b : Json) :
    (postProfileCars env s user b).2 = s := by
  unfold postProfileCars
  cases h : (runRules (carRules env.currentYear) b).isEmpty <;> simp [h]

theorem postAppointments_snd (env : Env) (s : Store) (user : ReqUser) (b : Json) :
    (postAppointments env s user b).2 = s := by
  unfold postAppointments
  cases h : (runRules (apptRules env) b).isEmpty <;>
    cases h2 : slotConflict env b <;> simp [h, h2]

theorem fakeAuth_snd (s : Store) (req : Request)
    (route : ReqUser → Response × Store)
    (h : ∀ ru, (route ru).2 = s) : (fakeAuth s req route).2 = s := by
  rw [fakeAuth_eq]
  cases resolveReqUser s req.xUserEmail with
  | none => rfl
  | some ru => exact h ru

theorem postAppointments_validated (env : Env) (s : Store) (user : ReqUser)
    (b : Json) (hv : runRules (apptRules env) b = []) :
    postAppointments env s user b
      = (if slotConflict env b then
           ⟨400, .msg "The selected time slot is unavailable. Please choose another time."⟩
         else ⟨201, .msg "Appointment booked successfully!"⟩, s) := by
  unfold postAppointments
  rw [hv]
  cases h2 : slotConflict env b <;> simp [h2]

theorem postAppointments_fst_store_free (env : Env) (s1 s2 : Store)
    (ru1 ru2 : ReqUser) (b : Json) :
    (postAppointments env s1 ru1 b).1 = (postAppointments env s2 ru2 b).1 := by
  unfold postAppointments
  cases h : (runRules (apptRules env) b).isEmpty <;>
    cases h2 : slotConflict env b <;> simp [h, h2]

/-! ### Claims -/

/-- C1 (code bug): the gate is documented to refuse any header value that
names no user, but bracket access on a plain object literal consults the
prototype chain, so the header value toString — a key of no user mapping —
resolves to the truthy inherited Object.prototype.toString, the gate
passes and the offerings handler runs, answering 200; a name that is
neither a user key nor an inherited member is refused with 401 as
documented. -/
theorem auth_gate_proto_hole :
    handle envHour11 (initStore "t")
        ⟨.GET, "/api/offerings", some "toString", .null⟩
      = (⟨200, .json (.arr [off1J, off2J, off3J])⟩, initStore "t")
    ∧ handle envHour11 (initStore "t")
        ⟨.GET, "/api/offerings", some "nobody@example.com", .null⟩
      = (⟨401, .msg "Unauthorized: Please provide a valid \x27x-user-email\x27 header."⟩,
         initStore "t") :=
  ⟨rfl, rfl⟩

/-- C2: on a validated POST /api/appointments, the conflict fires exactly
when offeringId is the string "offering-1" and the local hour of the
scheduled time lies in the inclusive range 10..12, yielding the 400
slot-conflict message; every other validated payload gets 201 with the
booked message. -/
theorem appointment_slot_conflict_rule (env : Env) (s : Store) (req : Request)
    (u : User) (t : String)
    (hm : req.method = .POST) (hp : req.path = "/api/appointments")
    (hu : resolveUser s req.xUserEmail = some u)
    (hv : runRules (apptRules env) req.body = [])
    (ht : getField req.body "scheduledTime" = some (.str t)) :
    (slotConflict env req.body = true ↔
      (getField req.body "offeringId" = some (.str "offering-1")
        ∧ 10 ≤ env.hourOf (.str t) ∧ env.hourOf (.str t) ≤ 12))
    ∧ (handle env s req).1
        = (if slotConflict env req.body then
            (⟨400, .msg "The selected time slot is unavailable. Please choose another time."⟩ : Response)
          else ⟨201, .msg "Appointment booked successfully!"⟩) := by
  obtain ⟨m, p, em, b⟩ := req
  subst hm
  subst hp
  constructor
  · unfold slotConflict
    rw [ht]
    cases ho : getField b "offeringId" with
    | none => simp
    | some j =>
        cases j with
        | null => simp
        | bool b2 => simp
        | num n => simp
        | arr l => simp
        | obj mm => simp
        | str o =>
            by_cases h1 : o = "offering-1"
            · subst h1
              simp [Option.getD]
            · simp [h1]
  · rw [handle_post_appts, fakeAuth_auth _ _ _ u hu,
      postAppointments_validated env s (ReqUser.record u) b hv]

/-- Witness for C2: at an environment whose sample time string has local
hour 11, offering-1 is refused with the slot-conflict message and
offering-2 is booked. -/
theorem appointment_slot_conflict_rule_witness :
    (handle envHour11 (initStore "t")
        ⟨.POST, "/api/appointments", some "customer@carshop.com", apptBody "offering-1"⟩).1
      = ⟨400, .msg "The selected time slot is unavailable. Please choose another time."⟩
    ∧ (handle envHour11 (initStore "t")
        ⟨.POST, "/api/appointments", some "customer@carshop.com", apptBody "offering-2"⟩).1
      = ⟨201, .msg "Appointment booked successfully!"⟩ := by
  constructor
  · exact ((appointment_slot_conflict_rule envHour11 (initStore "t")
      ⟨.POST, "/api/appointments", some "customer@carshop.com", apptBody "offering-1"⟩
      user1 "2026-01-05T11:30:00" rfl rfl rfl rfl rfl).2).trans rfl
  · exact ((appointment_slot_conflict_rule envHour11 (initStore "t")
      ⟨.POST, "/api/appointments", some "customer@carshop.com", apptBody "offering-2"⟩
      user1 "2026-01-05T11:30:00" rfl rfl rfl rfl rfl).2).trans rfl

/-- C3: on both authenticated POST endpoints the declared rules are all
evaluated (no short-circuit): the recorded error list is exactly one
ordered (field, message) entry per violated rule, and whenever it is
non-empty the response is 400 carrying that list, with the handler body
skipped. -/
theorem validation_reports_each_violated_rule (env : Env) (s : Store)
    (req : Request) (u : User)
    (hu : resolveUser s req.xUserEmail = some u) :
    (runRules (carRules env.currentYear) req.body
       = ((carRules env.currentYear).filter (fun r => !r.check req.body)).map
           (fun r => ⟨r.field, r.message⟩))
    ∧ (runRules (apptRules env) req.body
       = ((apptRules env).filter (fun r => !r.check req.body)).map
           (fun r => ⟨r.field, r.message⟩))
    ∧ (req.method = .POST → req.path = "/api/profile/cars" →
        runRules (carRules env.currentYear) req.body ≠ [] →
        (handle env s req).1
          = ⟨400, .errs (runRules (carRules env.currentYear) req.body)⟩)
    ∧ (req.method = .POST → req.path = "/api/appointments" →
        runRules (apptRules env) req.body ≠ [] →
        (handle env s req).1
          = ⟨400, .errs (runRules (apptRules env) req.body)⟩) := by
  obtain ⟨m, p, em, b⟩ := req
  refine ⟨runRules_eq_filterMap _ _, runRules_eq_filterMap _ _, ?_, ?_⟩
  · intro hm hp hne
    subst hm
    subst hp
    rw [handle_post_cars, fakeAuth_auth _ _ _ u hu]
    unfold postProfileCars
    have hfalse : (runRules (carRules env.currentYear) b).isEmpty = false := by
      cases hrr : runRules (carRules env.currentYear) b with
      | nil => exact absurd hrr hne
      | cons x xs => rfl
    simp [hfalse]
  · intro hm hp hne
    subst hm
    subst hp
    rw [handle_post_appts, fakeAuth_auth _ _ _ u hu]
    unfold postAppointments
    have hfalse : (runRules (apptRules env) b).isEmpty = false := by
      cases hrr : runRules (apptRules env) b with
      | nil => exact absurd hrr hne
      | cons x xs => rfl
    simp [hfalse]

/-- Witness for C3: a payload with an empty make and an out-of-range year
gets 400 with exactly the two corresponding entries, in rule order. -/
theorem validation_reports_each_violated_rule_witness :
    (handle envHour11 (initStore "t")
        ⟨.POST, "/api/profile/cars", some "customer@carshop.com", badCarBody⟩).1
      = ⟨400, .errs [⟨"make", "Make is required"⟩,
                     ⟨"year", "Please enter a valid year"⟩]⟩ := by
  exact ((validation_reports_each_violated_rule envHour11 (initStore "t")
    ⟨.POST, "/api/profile/cars", some "customer@carshop.com", badCarBody⟩
    user1 rfl).2.2.1 rfl rfl (by decide)).trans rfl

/-- Counterexample for C4: a validated payload that carries its own id
member makes the response echo that id instead of a freshly generated one,
and two distinct calls handled at the same millisecond timestamp (here two
different authenticated users at now = 5) produce byte-identical Car
objects, so the generated id is not unique across calls. -/
theorem new_car_fresh_id_cx :
    ((handle envHour11 (initStore "t")
        ⟨.POST, "/api/profile/cars", some "customer@carshop.com", sneakyCarBody⟩).1
      = ⟨201, .json (newCarJson 5 sneakyCarBody)⟩)
    ∧ lookupField (fieldsOf (newCarJson 5 sneakyCarBody)) "id" = some (.str "evil")
    ∧ ((handle envHour11 (initStore "t")
        ⟨.POST, "/api/profile/cars", some "customer@carshop.com", goodCarBody⟩).1
      = (handle envHour11 (initStore "t")
        ⟨.POST, "/api/profile/cars", some "employee@carshop.com", goodCarBody⟩).1) :=
  ⟨rfl, rfl, rfl⟩

/-- C4 (amended): a validated new-car payload that does not itself carry an
id member is answered 201 with a Car whose carType is null, whose id is the
freshly generated, non-empty `car-<timestamp>` string, which echoes every
submitted field, and whose generated ids differ across calls handled at
distinct timestamps. -/
theorem new_car_success_response (env : Env) (s : Store) (req : Request)
    (u : User)
    (hm : req.method = .POST) (hp : req.path = "/api/profile/cars")
    (hu : resolveUser s req.xUserEmail = some u)
    (hv : runRules (carRules env.currentYear) req.body = [])
    (hnodup : ((fieldsOf req.body).map Prod.fst).Nodup)
    (hnoid : lookupField (fieldsOf req.body) "id" = none) :
    (handle env s req).1 = ⟨201, .json (newCarJson env.now req.body)⟩
    ∧ lookupField (fieldsOf (newCarJson env.now req.body)) "carType" = some .null
    ∧ lookupField (fieldsOf (newCarJson env.now req.body)) "id"
        = some (.str (genCarId env.now))
    ∧ genCarId env.now ≠ ""
    ∧ (∀ k v, k ≠ "carType" → (k, v) ∈ fieldsOf req.body →
        lookupField (fieldsOf (newCarJson env.now req.body)) k = some v)
    ∧ (∀ n m : Nat, genCarId n = genCarId m → n = m) := by
  obtain ⟨m, p, em, b⟩ := req
  subst hm
  subst hp
  refine ⟨?_, ?_, ?_, genCarId_ne_empty env.now, ?_, genCarId_inj⟩
  · rw [handle_post_cars, fakeAuth_auth _ _ _ u hu]
    unfold postProfileCars
    simp [hv]
  · rw [lookupField_newCar _ _ _ hnodup]
    simp
  · rw [lookupField_newCar _ _ _ hnodup]
    simp [hnoid]
  · intro k v hk hmem
    rw [lookupField_newCar _ _ _ hnodup, if_neg hk,
      lookupField_eq_of_mem _ _ _ hnodup hmem]
    rfl

/-- Witness for C4: the fully valid sample payload at timestamp 5 yields
201 with carType null and id `car-5`. -/
theorem new_car_success_response_witness :
    (handle envHour11 (initStore "t")
        ⟨.POST, "/api/profile/cars", some "customer@carshop.com", goodCarBody⟩).1
      = ⟨201, .json (newCarJson 5 goodCarBody)⟩
    ∧ lookupField (fieldsOf (newCarJson 5 goodCarBody)) "carType" = some .null
    ∧ lookupField (fieldsOf (newCarJson 5 goodCarBody)) "id"
        = some (.str (genCarId 5)) := by
  have h := new_car_success_response envHour11 (initStore "t")
    ⟨.POST, "/api/profile/cars", some "customer@carshop.com", goodCarBody⟩
    user1 rfl rfl rfl rfl (by decide) rfl
  exact ⟨h.1, h.2.1, h.2.2.1⟩

/-- C5: on an authenticated GET /api/profile, a non-CUSTOMER role gets 403,
a CUSTOMER whose profileId resolves to no customer record gets 404 with
"Customer profile not found.", and otherwise the stored customer record is
returned verbatim with 200. -/
theorem get_profile_behavior (env : Env) (s : Store) (req : Request) (u : User)
    (hm : req.method = .GET) (hp : req.path = "/api/profile")
    (hu : resolveUser s req.xUserEmail = some u) :
    (u.role ≠ "CUSTOMER" →
      (handle env s req).1
        = ⟨403, .msg "Forbidden: Only customers can access this profile."⟩)
    ∧ (u.role = "CUSTOMER" → lookupRecord s.customers u.profileId = none →
      (handle env s req).1 = ⟨404, .msg "Customer profile not found."⟩)
    ∧ (∀ c, u.role = "CUSTOMER" → lookupRecord s.customers u.profileId = some c →
      (handle env s req).1 = ⟨200, .json c⟩) := by
  obtain ⟨m, p, em, b⟩ := req
  subst hm
  subst hp
  refine ⟨?_, ?_, ?_⟩
  · intro hrole
    rw [handle_get_profile, fakeAuth_auth _ _ _ u hu]
    unfold getProfile
    simp [ReqUser.role, ReqUser.profileId, hrole]
  · intro hrole hnone
    rw [handle_get_profile, fakeAuth_auth _ _ _ u hu]
    unfold getProfile
    simp [ReqUser.role, ReqUser.profileId, hrole, hnone]
  · intro c hrole hsome
    rw [handle_get_profile, fakeAuth_auth _ _ _ u hu]
    unfold getProfile
    simp [ReqUser.role, ReqUser.profileId, hrole, hsome]

/-- Witness for C5: customer@carshop.com receives 200 with the cust-1
record, whose cars member lists both fixture cars; the employee receives
403. -/
theorem get_profile_behavior_witness :
    (handle envHour11 (initStore "t")
        ⟨.GET, "/api/profile", some "customer@carshop.com", .null⟩).1
      = ⟨200, .json cust1J⟩
    ∧ lookupField (fieldsOf cust1J) "cars" = some (.arr [car1J, car2J])
    ∧ (handle envHour11 (initStore "t")
        ⟨.GET, "/api/profile", some "employee@carshop.com", .null⟩).1
      = ⟨403, .msg "Forbidden: Only customers can access this profile."⟩ := by
  refine ⟨?_, rfl, ?_⟩
  · exact (get_profile_behavior envHour11 (initStore "t")
      ⟨.GET, "/api/profile", some "customer@carshop.com", .null⟩
      user1 rfl rfl rfl).2.2 cust1J rfl rfl
  · exact (get_profile_behavior envHour11 (initStore "t")
      ⟨.GET, "/api/profile", some "employee@carshop.com", .null⟩
      user2 rfl rfl rfl).1 (by decide)

/-- C6: no request ever changes the fixture store, so a request repeated
after any other request gets the identical response, byte for byte. -/
theorem store_never_mutated (env env2 : Env) (s : Store) (req req0 : Request) :
    (handle env s req).2 = s
    ∧ (handle env ((handle env2 s req0).2) req).1 = (handle env s req).1
    ∧ ((handle env ((handle env2 s req0).2) req).1).render
        = ((handle env s req).1).render := by
  have hpreserve : ∀ (e3 : Env) (r3 : Request), (handle e3 s r3).2 = s := by
    intro e3 r3
    obtain ⟨m, p, em, b⟩ := r3
    unfold handle
    split
    · exact fakeAuth_snd _ _ _ (fun u => getProfile_snd s u)
    · exact fakeAuth_snd _ _ _ (fun u => rfl)
    · exact fakeAuth_snd _ _ _ (fun u => rfl)
    · exact fakeAuth_snd _ _ _ (fun u => postProfileCars_snd e3 s u _)
    · exact fakeAuth_snd _ _ _ (fun u => postAppointments_snd e3 s u _)
    · rfl
  refine ⟨hpreserve env req, ?_, ?_⟩
  · rw [hpreserve env2 req0]
  · rw [hpreserve env2 req0]

/-- C7: any authenticated caller of GET /api/offerings, whatever the role,
receives 200 with exactly the three fixture offerings in fixture order. -/
theorem offerings_unfiltered (env : Env) (apptIso : String) (req : Request)
    (u : User)
    (hm : req.method = .GET) (hp : req.path = "/api/offerings")
    (hu : resolveUser (initStore apptIso) req.xUserEmail = some u) :
    (handle env (initStore apptIso) req).1
      = ⟨200, .json (.arr [off1J, off2J, off3J])⟩ := by
  obtain ⟨m, p, em, b⟩ := req
  subst hm
  subst hp
  rw [handle_get_offerings, fakeAuth_auth _ _ _ u hu]
  rfl

/-- Witness for C7: all three fixture users (customer, employee, owner)
get the same full offering list. -/
theorem offerings_unfiltered_witness :
    (handle envHour11 (initStore "t")
        ⟨.GET, "/api/offerings", some "customer@carshop.com", .null⟩).1
      = ⟨200, .json (.arr [off1J, off2J, off3J])⟩
    ∧ (handle envHour11 (initStore "t")
        ⟨.GET, "/api/offerings", some "employee@carshop.com", .null⟩).1
      = ⟨200, .json (.arr [off1J, off2J, off3J])⟩
    ∧ (handle envHour11 (initStore "t")
        ⟨.GET, "/api/offerings", some "owner@carshop.com", .null⟩).1
      = ⟨200, .json (.arr [off1J, off2J, off3J])⟩ :=
  ⟨offerings_unfiltered envHour11 "t"
      ⟨.GET, "/api/offerings", some "customer@carshop.com", .null⟩ user1 rfl rfl rfl,
   offerings_unfiltered envHour11 "t"
      ⟨.GET, "/api/offerings", some "employee@carshop.com", .null⟩ user2 rfl rfl rfl,
   offerings_unfiltered envHour11 "t"
      ⟨.GET, "/api/offerings", some "owner@carshop.com", .null⟩ user3 rfl rfl rfl⟩

/-- C8: an authenticated GET /api/profile/appointments returns 200 with the
whole appointment collection, with no role check and no scoping: any two
known callers receive the same response. -/
theorem profile_appointments_unscoped (env : Env) (s : Store) (req : Request)
    (u : User)
    (hm : req.method = .GET) (hp : req.path = "/api/profile/appointments")
    (hu : resolveUser s req.xUserEmail = some u) :
    (handle env s req).1 = ⟨200, .json (.arr s.appointments)⟩
    ∧ (∀ (em2 : Option String) (u2 : User),
        resolveUser s em2 = some u2 →
        (handle env s { req with xUserEmail := em2 }).1 = (handle env s req).1) := by
  obtain ⟨m, p, em, b⟩ := req
  subst hm
  subst hp
  have hmain : ∀ (em3 : Option String) (u3 : User),
      resolveUser s em3 = some u3 →
      (handle env s ⟨.GET, "/api/profile/appointments", em3, b⟩).1
        = ⟨200, .json (.arr s.appointments)⟩ := by
    intro em3 u3 hu3
    rw [handle_get_appts, fakeAuth_auth _ _ _ u3 hu3]
    rfl
  refine ⟨hmain em u hu, ?_⟩
  intro em2 u2 hu2
  rw [hmain em2 u2 hu2, hmain em u hu]

/-- Witness for C8: customer and employee both receive the full fixture
appointment list. -/
theorem profile_appointments_unscoped_witness :
    (handle envHour11 (initStore "t")
        ⟨.GET, "/api/profile/appointments", some "customer@carshop.com", .null⟩).1
      = ⟨200, .json (.arr [appt1J "t"])⟩
    ∧ (handle envHour11 (initStore "t")
        ⟨.GET, "/api/profile/appointments", some "employee@carshop.com", .null⟩).1
      = ⟨200, .json (.arr [appt1J "t"])⟩ :=
  ⟨(profile_appointments_unscoped envHour11 (initStore "t")
      ⟨.GET, "/api/profile/appointments", some "customer@carshop.com", .null⟩
      user1 rfl rfl rfl).1,
   (profile_appointments_unscoped envHour11 (initStore "t")
      ⟨.GET, "/api/profile/appointments", some "employee@carshop.com", .null⟩
      user2 rfl rfl rfl).1⟩

/-- C9: in the new-car success response the body is spread between the
generated id and the trailing carType member: every submitted field is
echoed verbatim, carType is null even when the payload supplies one, and a
payload carrying its own id member overrides the generated id, which is
used only when the payload has none. -/
theorem new_car_spread_semantics (env : Env) (s : Store) (req : Request)
    (u : User)
    (hm : req.method = .POST) (hp : req.path = "/api/profile/cars")
    (hu : resolveUser s req.xUserEmail = some u)
    (hv : runRules (carRules env.currentYear) req.body = [])
    (hnodup : ((fieldsOf req.body).map Prod.fst).Nodup) :
    (handle env s req).1 = ⟨201, .json (newCarJson env.now req.body)⟩
    ∧ lookupField (fieldsOf (newCarJson env.now req.body)) "carType" = some .null
    ∧ (∀ k v, k ≠ "carType" → (k, v) ∈ fieldsOf req.body →
        lookupField (fieldsOf (newCarJson env.now req.body)) k = some v)
    ∧ (∀ v, ("id", v) ∈ fieldsOf req.body →
        lookupField (fieldsOf (newCarJson env.now req.body)) "id" = some v)
    ∧ (lookupField (fieldsOf req.body) "id" = none →
        lookupField (fieldsOf (newCarJson env.now req.body)) "id"
          = some (.str (genCarId env.now))) := by
  obtain ⟨m, p, em, b⟩ := req
  subst hm
  subst hp
  refine ⟨?_, ?_, ?_, ?_, ?_⟩
  · rw [handle_post_cars, fakeAuth_auth _ _ _ u hu]
    unfold postProfileCars
    simp [hv]
  · rw [lookupField_newCar _ _ _ hnodup]
    simp
  · intro k v hk hmem
    rw [lookupField_newCar _ _ _ hnodup, if_neg hk,
      lookupField_eq_of_mem _ _ _ hnodup hmem]
    rfl
  · intro v hmem
    rw [lookupField_newCar _ _ _ hnodup, if_neg (by decide : ¬ ("id" : String) = "carType"),
      lookupField_eq_of_mem _ _ _ hnodup hmem]
    rfl
  · intro hnoid
    rw [lookupField_newCar _ _ _ hnodup]
    simp [hnoid]

/-- Witness for C9: the sneaky payload (own id "evil" and carType "SUV")
passes validation; the response still has carType null, echoes make, and
its id is the payload's own "evil", not the generated one. -/
theorem new_car_spread_semantics_witness :
    (handle envHour11 (initStore "t")
        ⟨.POST, "/api/profile/cars", some "customer@carshop.com", sneakyCarBody⟩).1
      = ⟨201, .json (newCarJson 5 sneakyCarBody)⟩
    ∧ lookupField (fieldsOf (newCarJson 5 sneakyCarBody)) "carType" = some .null
    ∧ lookupField (fieldsOf (newCarJson 5 sneakyCarBody)) "make"
        = some (.str "Toyota")
    ∧ lookupField (fieldsOf (newCarJson 5 sneakyCarBody)) "id"
        = some (.str "evil") := by
  have h := new_car_spread_semantics envHour11 (initStore "t")
    ⟨.POST, "/api/profile/cars", some "customer@carshop.com", sneakyCarBody⟩
    user1 rfl rfl rfl rfl (by decide)
  refine ⟨h.1, h.2.1, ?_, ?_⟩
  · exact h.2.2.1 "make" (.str "Toyota") (by decide)
      (by simp [sneakyCarBody, fieldsOf])
  · exact h.2.2.2.1 (.str "evil") (by simp [sneakyCarBody, fieldsOf])

/-- C10: POST /api/appointments never consults the fixture collections and
never answers 404: swapping out every non-user collection leaves the
response unchanged, and an authenticated request with any non-empty carId,
any non-empty offeringId and a parseable scheduledTime is booked with 201
unless the offering-1 slot conflict fires. -/
theorem appointments_no_fixture_checks (env : Env) (s : Store) (req : Request) :
    (req.method = .POST → req.path = "/api/appointments" →
       (handle env s req).1.status ≠ 404)
    ∧ (∀ (u : User) (t : String),
        req.method = .POST → req.path = "/api/appointments" →
        resolveUser s req.xUserEmail = some u →
        jsNotEmpty (getField req.body "carId") = true →
        jsNotEmpty (getField req.body "offeringId") = true →
        getField req.body "scheduledTime" = some (.str t) →
        env.isISO8601 t = true →
        (handle env s req).1
          = (if slotConflict env req.body then
              (⟨400, .msg "The selected time slot is unavailable. Please choose another time."⟩ : Response)
            else ⟨201, .msg "Appointment booked successfully!"⟩))
    ∧ (∀ (carsX customersX : List (String × Json))
         (offeringsX appointmentsX : List Json),
        req.method = .POST → req.path = "/api/appointments" →
        (handle env { s with cars := carsX, customers := customersX,
                             offerings := offeringsX,
                             appointments := appointmentsX } req).1
          = (handle env s req).1) := by
  obtain ⟨m, p, em, b⟩ := req
  refine ⟨?_, ?_, ?_⟩
  · intro hm hp
    subst hm
    subst hp
    rw [handle_post_appts, fakeAuth_eq]
    cases hres : resolveReqUser s em with
    | none => simp [unauthorizedResp]
    | some ru =>
        unfold postAppointments
        cases h1 : (runRules (apptRules env) b).isEmpty <;>
          cases h2 : slotConflict env b <;> simp [h1, h2]
  · intro u t hm hp hu hcar hoff ht hiso
    subst hm
    subst hp
    have hv : runRules (apptRules env) b = [] := by
      simp [runRules, apptRules, jsIsISO8601, ht, hiso, hcar, hoff, jsToStr]
    rw [handle_post_appts, fakeAuth_auth _ _ _ u hu,
      postAppointments_validated env s (ReqUser.record u) b hv]
  · intro carsX customersX offeringsX appointmentsX hm hp
    subst hm
    subst hp
    have hres : resolveReqUser { s with cars := carsX, customers := customersX,
                                        offerings := offeringsX,
                                        appointments := appointmentsX } em
        = resolveReqUser s em := by
      unfold resolveReqUser
      cases em <;> rfl
    rw [handle_post_appts, handle_post_appts, fakeAuth_eq, fakeAuth_eq, hres]
    cases hres2 : resolveReqUser s em with
    | none => rfl
    | some ru => exact postAppointments_fst_store_free env _ s ru ru b

/-- Witness for C10: carId and offeringId naming no fixture at all still
book successfully at hour 11 (the conflict needs offering-1 exactly). -/
theorem appointments_no_fixture_checks_witness :
    (handle envHour11 (initStore "t")
        ⟨.POST, "/api/appointments", some "customer@carshop.com",
         .obj [("carId", .str "no-such-car"),
               ("offeringId", .str "no-such-offering"),
               ("scheduledTime", .str "2026-01-05T11:30:00")]⟩).1
      = ⟨201, .msg "Appointment booked successfully!"⟩ := by
  exact ((appointments_no_fixture_checks envHour11 (initStore "t")
    ⟨.POST, "/api/appointments", some "customer@carshop.com",
     .obj [("carId", .str "no-such-car"),
           ("offeringId", .str "no-such-offering"),
           ("scheduledTime", .str "2026-01-05T11:30:00")]⟩).2.1 user1
    "2026-01-05T11:30:00" rfl rfl rfl rfl rfl rfl rfl).trans rfl
